import Mathlib

/-!
Verification of the django-messages private-messaging application.

The development shallowly embeds the three source files
`django_messages/models.py`, `django_messages/forms.py` and
`django_messages/views.py`.  Users are records carrying an id and a
username; the `Message` model is a record with one field per database
column (nullable columns become `Option`, datetimes become `Nat`
timestamps); the database table is an association list from primary key
to row.  Each Python method becomes a Lean function of the same name.
-/

/-- A `django.contrib.auth` user: only the primary key and the username
are relevant to the messaging code. -/
structure User where
  id : Nat
  username : String
deriving DecidableEq

/-- The `Message` model of `models.py`: one field per column.  Nullable
columns (`recipient`, `thread`, `parent_msg`, `sent_at`, `read_at`,
`replied_at`, `deleted_at`) are `Option`; `parent_msg` is a foreign key
to another message's primary key; datetimes are `Nat` timestamps. -/
structure Message where
  owner : User
  «to» : String
  subject : String
  body : String
  sender : User
  recipient : Option User
  thread : Option String
  parent_msg : Option Nat
  sent_at : Option Nat
  unread : Bool
  read_at : Option Nat
  replied_at : Option Nat
  deleted : Bool
  deleted_at : Option Nat
deriving DecidableEq

/-- `Message.is_unread`: `bool(self.read_at is None)`. -/
def Message.is_unread (m : Message) : Bool :=
  m.read_at.isNone

/-- `Message.undelete`: clears the soft-delete flag and timestamp. -/
def Message.undelete (m : Message) : Message :=
  { m with deleted := false, deleted_at := none }

/-- `Message.mark_read`: `now` stands for `datetime.datetime.now()`. -/
def Message.mark_read (m : Message) (now : Nat) : Message :=
  { m with unread := false, read_at := some now }

/-- `Message.mark_unread`. -/
def Message.mark_unread (m : Message) : Message :=
  { m with unread := true, read_at := none }

/-- `Message.move_to_trash`: `now` stands for `datetime.datetime.now()`. -/
def Message.move_to_trash (m : Message) (now : Nat) : Message :=
  { m with deleted := true, deleted_at := some now }

/-- `Message.replied`: `bool(self.replied_at is not None)`. -/
def Message.replied (m : Message) : Bool :=
  m.replied_at.isSome

/-- The `messages_message` table: an association list from primary key
to row. -/
abbrev DB := List (Nat × Message)

/-- `Inbox.get_query_set`: the base queryset filtered by `deleted=False`. -/
def inboxQuerySet (db : DB) : DB :=
  db.filter (fun e => decide (e.2.deleted = false))

/-- `Inbox.for_user`: the inbox queryset filtered by
`owner=user, recipient=user`. -/
def inboxForUser (db : DB) (user : User) : DB :=
  (inboxQuerySet db).filter
    (fun e => decide (e.2.owner = user ∧ e.2.recipient = some user))

/-- `Outbox.get_query_set`: the base queryset filtered by `deleted=False`. -/
def outboxQuerySet (db : DB) : DB :=
  db.filter (fun e => decide (e.2.deleted = false))

/-- `Outbox.for_user`: the outbox queryset filtered by
`owner=user, sender=user`. -/
def outboxForUser (db : DB) (user : User) : DB :=
  (outboxQuerySet db).filter
    (fun e => decide (e.2.owner = user ∧ e.2.sender = user))

/-- `Trash.get_query_set`: the base queryset filtered by `deleted=True`. -/
def trashQuerySet (db : DB) : DB :=
  db.filter (fun e => decide (e.2.deleted = true))

/-- `Trash.for_user`: the trash queryset filtered by `owner=user`. -/
def trashForUser (db : DB) (user : User) : DB :=
  (trashQuerySet db).filter (fun e => decide (e.2.owner = user))

/-- `BaseMessageManager.send`: the body is `pass`, so the table is
returned unchanged for any argument. -/
def objectsSend (db : DB) (messages : List Message) : DB :=
  db

/-- Python `x or default` on a nullable string: `None` and the empty
string are falsy. -/
def pyOr (x : Option String) (default : String) : String :=
  match x with
  | some s => if s = "" then default else s
  | none => default

/-- `MessageForm.create_recipient_message`: the per-recipient clone of
the instance.  Fields not passed to the `Message(...)` constructor keep
their model defaults (`unread=True`, `deleted=False`, the nullable
columns `None`). -/
def createRecipientMessage (sender recipient : User) (message : Message) : Message :=
  { owner := recipient
    sender := sender
    «to» := recipient.username
    recipient := some recipient
    subject := message.subject
    body := message.body
    thread := message.thread
    sent_at := message.sent_at
    parent_msg := none
    unread := true
    read_at := none
    replied_at := none
    deleted := false
    deleted_at := none }

/-- `MessageForm.get_thread`: `message.thread or uuid.uuid4().hex`;
`freshUuid` stands for the freshly generated `uuid.uuid4().hex`. -/
def getThread (message : Message) (freshUuid : String) : String :=
  pyOr message.thread freshUuid

/-- The `for r in recipients` loop of `MessageForm.save`: entries equal
to the sender are skipped, every other entry is cloned with the
dispatched `create_recipient_message` (`create`). -/
def cloneLoop (create : User → Message → Message) (sender : User) :
    List User → Message → List Message
  | [], _ => []
  | r :: rest, inst =>
    if r = sender then cloneLoop create sender rest inst
    else create r inst :: cloneLoop create sender rest inst

/-- The unsaved `ModelForm` instance as `MessageForm.save` leaves it
just before commit: `sender`/`owner` set to the form's sender,
`recipient` to `recipients[0]`, `unread` to `False`, `sent_at` to now,
`to` to the comma-joined usernames; the remaining columns keep their
model defaults.  `threadVal` is whatever the dispatched `get_thread`
returned (the clones read only `subject`, `body`, `thread` and
`sent_at`, all of which are set before the clone loop runs). -/
def formInstance (sender : User) (recipients : List User)
    (subject body : String) (threadVal : Option String) (now : Nat) : Message :=
  { owner := sender
    «to» := String.intercalate "," (recipients.map User.username)
    subject := subject
    body := body
    sender := sender
    recipient := recipients.head?
    thread := threadVal
    parent_msg := none
    sent_at := some now
    unread := false
    read_at := none
    replied_at := none
    deleted := false
    deleted_at := none }

/-- `MessageForm.save` (as called by `ComposeForm`): returns the
sender-owned instance and the recipient clones.  A fresh form instance
has `thread = None`, so `get_thread` yields `freshUuid`. -/
def messageFormSave (sender : User) (recipients : List User)
    (subject body freshUuid : String) (now : Nat) : Message × List Message :=
  let inst0 := formInstance sender recipients subject body none now
  let inst := { inst0 with thread := some (getThread inst0 freshUuid) }
  (inst, cloneLoop (createRecipientMessage sender) sender recipients inst)

/-- The filter kwargs of the `Message.objects.get` call in
`ReplyForm.create_recipient_message`: `owner=recipient`,
`sender=message.recipient`, `recipient=message.sender`,
`thread=message.thread`. -/
abbrev matchesParent (recipient : User) (message m : Message) : Prop :=
  m.owner = recipient ∧ some m.sender = message.recipient ∧
    m.recipient = some message.sender ∧ m.thread = message.thread

/-- `Message.objects.get(...)` under the surrounding
`try/except (DoesNotExist, MultipleObjectsReturned)`: the primary key of
the unique matching row, `none` when no row or several rows match. -/
def parentLookup (db : DB) (recipient : User) (message : Message) : Option Nat :=
  match db.filter (fun e => decide (matchesParent recipient message e.2)) with
  | [e] => some e.1
  | _ => none

/-- `ReplyForm.create_recipient_message`: the base clone, with
`replied_at` set and `parent_msg` filled in from the recipient-scoped
lookup (left at its default `None` when the lookup raises). -/
def replyCreateRecipientMessage (db : DB) (sender recipient : User)
    (message : Message) (now : Nat) : Message :=
  let msg := createRecipientMessage sender recipient message
  { msg with replied_at := some now
             parent_msg := parentLookup db recipient message }

/-- The clone loop of `MessageForm.save` as run by a `ReplyForm`, where
`create_recipient_message` dispatches to the reply override. -/
def replyCloneLoop (db : DB) (sender : User) (recipients : List User)
    (inst : Message) (now : Nat) : List Message :=
  cloneLoop (fun r m => replyCreateRecipientMessage db sender r m now) sender recipients inst

/-- `ReplyForm.save`: runs `MessageForm.save(commit=False)` — with
`get_thread` returning `self.parent_message.thread` and the overridden
`create_recipient_message` — then sets `replied_at` and `parent_msg` on
the instance.  `parentId`/`parentMsg` are the primary key and row of
`self.parent_message`. -/
def replyFormSave (db : DB) (sender : User) (parentId : Nat) (parentMsg : Message)
    (recipients : List User) (subject body : String) (now : Nat) :
    Message × List Message :=
  let inst := formInstance sender recipients subject body parentMsg.thread now
  let message_list := replyCloneLoop db sender recipients inst now
  ({ inst with replied_at := some now, parent_msg := some parentId }, message_list)

/-- One observable step of the `commit=True` branch of `save`: a write
of the instance, a write of a recipient clone, or a
`notification.send(addressees, label, ...)` call. -/
inductive Event where
  | saveInst (m : Message) : Event
  | saveMsg (m : Message) : Event
  | notify (addressees : List (Option User)) (label : String) : Event
deriving DecidableEq

/-- The `for msg in message_list` commit loop: each clone is saved and
then, when the notification app is installed (`notif`), `notification.send`
is called with `[msg.recipient]` and the given label. -/
def commitLoop (notif : Bool) (label : String) : List Message → List Event
  | [] => []
  | msg :: rest =>
    Event.saveMsg msg ::
      (if notif then [Event.notify [msg.recipient] label] else []) ++
        commitLoop notif label rest

/-- The full `commit=True` branch shared by `MessageForm.save` and
`ReplyForm.save`: `instance.save()` followed by the commit loop. -/
def commitEvents (notif : Bool) (label : String) (inst : Message)
    (message_list : List Message) : List Event :=
  Event.saveInst inst :: commitLoop notif label message_list

/-- The notification label used by `MessageForm.save`. -/
def composeLabel : String := "messages_received"

/-- The notification label used by `ReplyForm.save`. -/
def replyLabel : String := "messages_reply_received"

/-- The addressee lists of the `notification.send` calls of a trace, in
order. -/
def notifySends : List Event → List (List (Option User))
  | [] => []
  | Event.notify addressees _ :: rest => addressees :: notifySends rest
  | _ :: rest => notifySends rest

/-- A trace in which every notification call immediately follows the
write of a recipient clone and addresses exactly that clone's
recipient; no other position may hold a notification call, so in
particular the instance write is never followed directly by one. -/
inductive NotifyDiscipline : List Event → Prop where
  | nil : NotifyDiscipline []
  | skipInst (m : Message) (evs : List Event) :
      NotifyDiscipline evs → NotifyDiscipline (Event.saveInst m :: evs)
  | skipSave (m : Message) (evs : List Event) :
      NotifyDiscipline evs → NotifyDiscipline (Event.saveMsg m :: evs)
  | savedThenNotify (m : Message) (label : String) (evs : List Event) :
      NotifyDiscipline evs →
      NotifyDiscipline (Event.saveMsg m :: Event.notify [m.recipient] label :: evs)

/-- `pk` lookup: the row of the table with the given primary key. -/
def lookupDb (db : DB) (pk : Nat) : Option Message :=
  (db.find? (fun e => decide (e.1 = pk))).map Prod.snd

/-- `save()` on an existing row: replace the row with the given primary
key by the result of `f`, leaving every other row unchanged. -/
def updateDb (db : DB) (pk : Nat) (f : Message → Message) : DB :=
  db.map (fun e => if e.1 = pk then (e.1, f e.2) else e)

/-- A primary key larger than every key in the table. -/
def nextId (db : DB) : Nat :=
  db.foldr (fun e acc => max (e.1 + 1) acc) 0

/-- Insert fresh rows with consecutive primary keys starting at `start`. -/
def insertFrom (start : Nat) : List Message → DB
  | [] => []
  | m :: rest => (start, m) :: insertFrom (start + 1) rest

/-- `save()` on unsaved instances: append each as a fresh row. -/
def insertAll (db : DB) (msgs : List Message) : DB :=
  db ++ insertFrom (nextId db) msgs

/-- One state-changing HTTP request of `views.py`: compose, reply,
delete, undelete, or view (which marks an unread message read).  The
pure list views (inbox/outbox/trash) do not change state. -/
inductive AppOp where
  | composeOp (sender : User) (recipients : List User)
      (subject body freshUuid : String) (now : Nat) : AppOp
  | replyOp (sender : User) (parentId : Nat) (recipients : List User)
      (subject body : String) (now : Nat) : AppOp
  | deleteOp (user : User) (messageId : Nat) (now : Nat) : AppOp
  | undeleteOp (user : User) (messageId : Nat) : AppOp
  | viewOp (user : User) (messageId : Nat) (now : Nat) : AppOp

/-- The effect of each view on the table.  `get_object_or_404(Message,
pk=..., owner=request.user)` is the guarded lookup: when it fails the
request raises 404 and the table is untouched.  The `delete` view only
calls `move_to_trash` and `save`; `undelete` only `undelete` and
`save`; `view` calls `mark_read` and `save` when `is_unread()`. -/
def applyOp (op : AppOp) (db : DB) : DB :=
  match op with
  | AppOp.composeOp sender recipients subject body freshUuid now =>
    let p := messageFormSave sender recipients subject body freshUuid now
    insertAll db (p.1 :: p.2)
  | AppOp.replyOp sender parentId recipients subject body now =>
    match lookupDb db parentId with
    | some parent =>
      if parent.owner = sender then
        let p := replyFormSave db sender parentId parent recipients subject body now
        insertAll db (p.1 :: p.2)
      else db
    | none => db
  | AppOp.deleteOp user messageId now =>
    match lookupDb db messageId with
    | some m =>
      if m.owner = user then updateDb db messageId (fun msg => msg.move_to_trash now)
      else db
    | none => db
  | AppOp.undeleteOp user messageId =>
    match lookupDb db messageId with
    | some m =>
      if m.owner = user then updateDb db messageId Message.undelete
      else db
    | none => db
  | AppOp.viewOp user messageId now =>
    match lookupDb db messageId with
    | some m =>
      if m.owner = user then
        if m.is_unread then updateDb db messageId (fun msg => msg.mark_read now)
        else db
      else db
    | none => db

/-- A sequence of requests applied in order. -/
def applyOps (ops : List AppOp) (db : DB) : DB :=
  ops.foldl (fun d op => applyOp op d) db

/-- Sample user for concrete evaluations. -/
def alice : User := { id := 0, username := "alice" }

/-- Sample user for concrete evaluations. -/
def bob : User := { id := 1, username := "bob" }

/-- Sample user for concrete evaluations. -/
def carol : User := { id := 2, username := "carol" }

/-- A sample stored message: bob's copy of a message from alice, on
thread `"t0"`. -/
def sampleMsg : Message :=
  { owner := bob
    «to» := "bob"
    subject := "hi"
    body := "hello"
    sender := alice
    recipient := some bob
    thread := some "t0"
    parent_msg := none
    sent_at := some 1
    unread := true
    read_at := none
    replied_at := none
    deleted := false
    deleted_at := none }

/-- The sender-owned copy of the same logical message: alice's copy, on
the same thread `"t0"`. -/
def sampleMsgAlice : Message :=
  { owner := alice
    «to» := "bob"
    subject := "hi"
    body := "hello"
    sender := alice
    recipient := some bob
    thread := some "t0"
    parent_msg := none
    sent_at := some 1
    unread := false
    read_at := none
    replied_at := none
    deleted := false
    deleted_at := none }

/-- A sample table: both copies of one alice-to-bob message. -/
def sampleDb : DB := [(0, sampleMsgAlice), (1, sampleMsg)]

/-- Claim C8: `Message.objects.send` performs no state change at all,
so the table after the compose or reply view's `Message.objects.send`
call equals the table right after `form.save` returned. -/
theorem C8_objects_send_is_noop (db : DB) (messages : List Message) :
    objectsSend db messages = db :=
  rfl

/-- Claim C2: `Inbox.for_user u` returns exactly the rows with
`owner = u`, `recipient = u` and `deleted = False`; `Outbox.for_user u`
exactly the rows with `owner = u`, `sender = u` and `deleted = False`;
`Trash.for_user u` exactly the rows with `owner = u` and
`deleted = True`. -/
theorem C2_manager_views (db : DB) (u : User) (e : Nat × Message) :
    (e ∈ inboxForUser db u ↔
      e ∈ db ∧ e.2.owner = u ∧ e.2.recipient = some u ∧ e.2.deleted = false) ∧
    (e ∈ outboxForUser db u ↔
      e ∈ db ∧ e.2.owner = u ∧ e.2.sender = u ∧ e.2.deleted = false) ∧
    (e ∈ trashForUser db u ↔ e ∈ db ∧ e.2.owner = u ∧ e.2.deleted = true) := by
  refine ⟨?_, ?_, ?_⟩ <;>
    simp only [inboxForUser, inboxQuerySet, outboxForUser, outboxQuerySet,
      trashForUser, trashQuerySet, List.mem_filter, decide_eq_true_eq] <;>
    tauto

/-- Claim C6: `move_to_trash` followed by `undelete` leaves the message
with `deleted = False` and `deleted_at = None`, and `mark_read` followed
by `mark_unread` leaves it with `unread = True` and `read_at = None`; in
particular each pair exactly restores a message whose delete
(respectively read) state was the one it changed. -/
theorem C6_mutator_pairs (m : Message) (now : Nat) :
    (m.move_to_trash now).undelete = { m with deleted := false, deleted_at := none } ∧
    (m.mark_read now).mark_unread = { m with unread := true, read_at := none } ∧
    (m.deleted = false → m.deleted_at = none → (m.move_to_trash now).undelete = m) ∧
    (m.unread = true → m.read_at = none → (m.mark_read now).mark_unread = m) := by
  refine ⟨rfl, rfl, ?_, ?_⟩ <;>
    (intro h1 h2
     cases m
     simp_all [Message.move_to_trash, Message.undelete, Message.mark_read,
       Message.mark_unread])

/-- Witness for C6 at a concrete message. -/
theorem C6_mutator_pairs_witness :
    (sampleMsg.move_to_trash 5).undelete = sampleMsg :=
  (C6_mutator_pairs sampleMsg 5).2.2.1 (by decide) (by decide)

/-- Claim C9: `is_unread` depends only on `read_at`, and the sender's
own copy produced by `MessageForm.save` has `unread = False` yet
`read_at = None`, so `is_unread` returns `True` for it until `mark_read`
is applied. -/
theorem C9_is_unread_reads_read_at (m : Message) (sender : User)
    (recipients : List User) (subject body freshUuid : String) (now : Nat) :
    (m.is_unread = true ↔ m.read_at = none) ∧
    (messageFormSave sender recipients subject body freshUuid now).1.unread = false ∧
    (messageFormSave sender recipients subject body freshUuid now).1.read_at = none ∧
    (messageFormSave sender recipients subject body freshUuid now).1.is_unread = true ∧
    ((messageFormSave sender recipients subject body freshUuid now).1.mark_read
        now).is_unread = false := by
  refine ⟨?_, rfl, rfl, rfl, rfl⟩
  simp [Message.is_unread, Option.isNone_iff_eq_none]

theorem cloneLoop_length (create : User → Message → Message) (s : User)
    (rs : List User) (inst : Message) :
    (cloneLoop create s rs inst).length = rs.length - rs.count s := by
  induction rs with
  | nil => rfl
  | cons r rest ih =>
    have hle := List.count_le_length s rest
    by_cases h : r = s
    · simp [cloneLoop, h, List.count_cons, ih]
    · have hrs : (r == s) = false := by simp [h]
      simp only [cloneLoop, if_neg h, List.length_cons, List.count_cons, hrs,
        if_neg Bool.false_ne_true, ih]
      omega

theorem cloneLoop_mem (create : User → Message → Message) (s : User)
    (rs : List User) (inst : Message) (m : Message)
    (hm : m ∈ cloneLoop create s rs inst) :
    ∃ r, r ∈ rs ∧ r ≠ s ∧ m = create r inst := by
  induction rs with
  | nil => simp [cloneLoop] at hm
  | cons r rest ih =>
    by_cases h : r = s
    · simp only [cloneLoop, if_pos h] at hm
      obtain ⟨r', hr', hne, he⟩ := ih hm
      exact ⟨r', List.mem_cons_of_mem _ hr', hne, he⟩
    · simp only [cloneLoop, if_neg h, List.mem_cons] at hm
      rcases hm with hm | hm
      · exact ⟨r, List.mem_cons_self _ _, h, hm⟩
      · obtain ⟨r', hr', hne, he⟩ := ih hm
        exact ⟨r', List.mem_cons_of_mem _ hr', hne, he⟩

theorem cloneLoop_eq_map (create : User → Message → Message) (s : User)
    (rs : List User) (inst : Message) (hs : s ∉ rs) :
    cloneLoop create s rs inst = rs.map (fun r => create r inst) := by
  induction rs with
  | nil => rfl
  | cons r rest ih =>
    have hr : r ≠ s := fun h => hs (h ▸ List.mem_cons_self _ _)
    have hrest : s ∉ rest := fun h => hs (List.mem_cons_of_mem _ h)
    simp [cloneLoop, if_neg hr, ih hrest]

/-- Claim C10: recipients equal to the sender are skipped by
`MessageForm.save`: `k` occurrences of the sender among `N` recipients
yield `N - k` recipient copies (none of them owned by the sender) next
to the one sender copy, and a send addressed only to the sender creates
exactly one record. -/
theorem C10_sender_skipped (sender : User) (recipients : List User)
    (subject body freshUuid : String) (now : Nat) :
    (messageFormSave sender recipients subject body freshUuid now).2.length =
      recipients.length - recipients.count sender ∧
    (∀ m, m ∈ (messageFormSave sender recipients subject body freshUuid now).2 →
      m.owner ≠ sender) ∧
    ((messageFormSave sender [sender] subject body freshUuid now).1 ::
      (messageFormSave sender [sender] subject body freshUuid now).2).length = 1 := by
  refine ⟨cloneLoop_length _ _ _ _, ?_, by simp [messageFormSave, cloneLoop]⟩
  intro m hm
  obtain ⟨r, _, hne, he⟩ :=
    cloneLoop_mem (createRecipientMessage sender) sender recipients _ m hm
  rw [he]
  exact hne

/-- Witness for C10 at a concrete send in which the sender lists
themself along with one other recipient. -/
theorem C10_sender_skipped_witness :
    (createRecipientMessage alice bob
        (messageFormSave alice [alice, bob] "s" "b" "t" 7).1).owner ≠ alice :=
  (C10_sender_skipped alice [alice, bob] "s" "b" "t" 7).2.1 _ (by decide)

/-- Claim C4: a fresh send gives the sender copy and every recipient
copy the one new thread value, and a reply gives the reply instance and
every recipient copy the parent message's thread value. -/
theorem C4_thread_shared (sender : User) (recipients : List User)
    (subject body freshUuid : String) (now : Nat)
    (db : DB) (parentId : Nat) (parentMsg : Message) :
    (messageFormSave sender recipients subject body freshUuid now).1.thread =
      some freshUuid ∧
    (∀ m, m ∈ (messageFormSave sender recipients subject body freshUuid now).2 →
      m.thread = some freshUuid) ∧
    (replyFormSave db sender parentId parentMsg recipients subject body now).1.thread =
      parentMsg.thread ∧
    (∀ m, m ∈ (replyFormSave db sender parentId parentMsg recipients subject body now).2 →
      m.thread = parentMsg.thread) := by
  refine ⟨rfl, ?_, rfl, ?_⟩
  · intro m hm
    obtain ⟨r, _, _, he⟩ := cloneLoop_mem (createRecipientMessage sender)
      sender recipients _ m hm
    rw [he]
    rfl
  · intro m hm
    obtain ⟨r, _, _, he⟩ := cloneLoop_mem
      (fun r m => replyCreateRecipientMessage db sender r m now)
      sender recipients _ m hm
    rw [he]
    rfl

/-- Witness for C4: the concrete recipient copy of a fresh send carries
the fresh thread value. -/
theorem C4_thread_shared_witness :
    (createRecipientMessage alice bob
        (messageFormSave alice [bob] "s" "b" "t1" 3).1).thread = some "t1" :=
  (C4_thread_shared alice [bob] "s" "b" "t1" 3 sampleDb 0 sampleMsgAlice).2.1 _
    (by decide)

/-- Counterexample to claim C1 as stated: a valid submission whose
recipient list is the one-element list holding the sender produces a
single record, not `N + 1 = 2` of them, because `MessageForm.save`
skips recipients equal to the sender. -/
theorem C1_counterexample :
    ¬ (((messageFormSave alice [alice] "s" "b" "t" 0).1 ::
        (messageFormSave alice [alice] "s" "b" "t" 0).2).length = 1 + 1) := by
  decide

/-- Claim C1 (amended: the sender must not appear in the recipient
list): a valid submission with `N` recipients, none of whom is the
sender, produces exactly `N + 1` records — the sender's own copy with
`owner = sender`, and one copy per recipient with `owner` and
`recipient` that recipient and `sender` the form's sender — all
carrying the same thread value as the sender copy. -/
theorem C1_fanout (sender : User) (recipients : List User)
    (subject body freshUuid : String) (now : Nat)
    (hne : recipients ≠ []) (hs : sender ∉ recipients) :
    ((messageFormSave sender recipients subject body freshUuid now).1 ::
      (messageFormSave sender recipients subject body freshUuid now).2).length =
      recipients.length + 1 ∧
    (messageFormSave sender recipients subject body freshUuid now).1.owner = sender ∧
    (messageFormSave sender recipients subject body freshUuid now).1.sender = sender ∧
    List.Forall₂
      (fun r m => m.owner = r ∧ m.sender = sender ∧ m.recipient = some r ∧
        m.thread = (messageFormSave sender recipients subject body freshUuid now).1.thread)
      recipients (messageFormSave sender recipients subject body freshUuid now).2 := by
  have h2 : (messageFormSave sender recipients subject body freshUuid now).2 =
      recipients.map (fun r => createRecipientMessage sender r
        (messageFormSave sender recipients subject body freshUuid now).1) :=
    cloneLoop_eq_map _ _ _ _ hs
  refine ⟨?_, rfl, rfl, ?_⟩
  · rw [List.length_cons, h2, List.length_map]
  · rw [h2]
    refine List.forall₂_map_right_iff.mpr (List.forall₂_same.mpr ?_)
    intro r _
    exact ⟨rfl, rfl, rfl, rfl⟩

/-- Witness for C1 at a concrete two-recipient send. -/
theorem C1_fanout_witness :
    ((messageFormSave alice [bob, carol] "s" "b" "t" 0).1 ::
      (messageFormSave alice [bob, carol] "s" "b" "t" 0).2).length = 2 + 1 :=
  (C1_fanout alice [bob, carol] "s" "b" "t" 0 (by decide) (by decide)).1

theorem filter_of_unique {α : Type} (p : α → Bool) (l : List α) (hl : l.Nodup)
    (e : α) (he : e ∈ l) (hp : p e = true)
    (hu : ∀ e', e' ∈ l → p e' = true → e' = e) :
    l.filter p = [e] := by
  induction l with
  | nil => cases he
  | cons x xs ih =>
    obtain ⟨hx, hxs⟩ := List.nodup_cons.mp hl
    by_cases hpx : p x = true
    · have hxe : x = e := hu x (List.mem_cons_self _ _) hpx
      subst hxe
      rw [List.filter_cons, if_pos hpx]
      have : xs.filter p = [] := by
        rw [List.filter_eq_nil_iff]
        intro a ha hpa
        exact hx ((hu a (List.mem_cons_of_mem _ ha) hpa) ▸ ha)
      rw [this]
    · have hex : e ∈ xs := by
        rcases List.mem_cons.mp he with h | h
        · exact absurd (h ▸ hp) hpx
        · exact h
      rw [List.filter_cons, if_neg hpx]
      exact ih hxs hex fun e' h' hp' => hu e' (List.mem_cons_of_mem _ h') hp'

theorem two_le_countP {α : Type} (p : α → Bool) (l : List α) (e e' : α)
    (hne : e ≠ e') (he : e ∈ l) (he' : e' ∈ l)
    (hp : p e = true) (hp' : p e' = true) : 2 ≤ l.countP p := by
  induction l with
  | nil => cases he
  | cons x xs ih =>
    rw [List.countP_cons]
    rcases List.mem_cons.mp he with hex | hex
    · rcases List.mem_cons.mp he' with hex' | hex'
      · exact absurd (hex ▸ hex'.symm) hne
      · have h1 : 0 < xs.countP p := List.countP_pos_iff.mpr ⟨e', hex', hp'⟩
        rw [if_pos (hex ▸ hp)]
        omega
    · rcases List.mem_cons.mp he' with hex' | hex'
      · have h1 : 0 < xs.countP p := List.countP_pos_iff.mpr ⟨e, hex, hp⟩
        rw [if_pos (hex' ▸ hp')]
        omega
      · have := ih hex hex'
        omega

/-- Claim C3: the reply's per-recipient clone gets `parent_msg` set to
the unique stored message with `owner` = that recipient, `sender` = the
reply instance's recipient, `recipient` = the reply instance's sender
and the reply's thread; when no such row exists, or several do, the
clone is still produced (owned by the recipient, `replied_at` stamped)
with `parent_msg` left `None`. -/
theorem C3_reply_parent (db : DB) (sender r : User) (message : Message)
    (now : Nat) (hnd : db.Nodup) :
    (∀ e, e ∈ db → matchesParent r message e.2 →
      (∀ e', e' ∈ db → matchesParent r message e'.2 → e' = e) →
      (replyCreateRecipientMessage db sender r message now).parent_msg = some e.1) ∧
    ((¬ ∃ e, e ∈ db ∧ matchesParent r message e.2) →
      (replyCreateRecipientMessage db sender r message now).parent_msg = none) ∧
    (∀ e e', e ∈ db → e' ∈ db → e ≠ e' →
      matchesParent r message e.2 → matchesParent r message e'.2 →
      (replyCreateRecipientMessage db sender r message now).parent_msg = none) ∧
    (replyCreateRecipientMessage db sender r message now).owner = r ∧
    (replyCreateRecipientMessage db sender r message now).replied_at = some now := by
  have hpm : (replyCreateRecipientMessage db sender r message now).parent_msg =
      parentLookup db r message := rfl
  refine ⟨?_, ?_, ?_, rfl, rfl⟩
  · intro e he hp hu
    have hf : db.filter (fun e => decide (matchesParent r message e.2)) = [e] :=
      filter_of_unique _ db hnd e he (decide_eq_true hp)
        fun e' h' hp' => hu e' h' (of_decide_eq_true hp')
    rw [hpm, parentLookup, hf]
  · intro hno
    have hf : db.filter (fun e => decide (matchesParent r message e.2)) = [] := by
      rw [List.filter_eq_nil_iff]
      intro a ha hpa
      exact hno ⟨a, ha, of_decide_eq_true hpa⟩
    rw [hpm, parentLookup, hf]
  · intro e e' he he' hne hp hp'
    have h2 : 2 ≤ db.countP (fun e => decide (matchesParent r message e.2)) :=
      two_le_countP _ db e e' hne he he' (decide_eq_true hp) (decide_eq_true hp')
    rw [List.countP_eq_length_filter] at h2
    rw [hpm, parentLookup]
    rcases hf : db.filter (fun e => decide (matchesParent r message e.2)) with
      _ | ⟨a, _ | ⟨b, t⟩⟩
    · rw [hf]
    · rw [hf] at h2
      simp at h2
    · rw [hf]

/-- Witness for C3: bob's reply to alice's message finds alice's own
copy of the original message (primary key 0 of the sample table) as the
parent of alice's reply copy. -/
theorem C3_reply_parent_witness :
    (replyCreateRecipientMessage sampleDb bob alice
        (formInstance bob [alice] "Re: hi" "q" (some "t0") 2) 2).parent_msg =
      some 0 :=
  (C3_reply_parent sampleDb bob alice
      (formInstance bob [alice] "Re: hi" "q" (some "t0") 2) 2 (by decide)).1
    (0, sampleMsgAlice) (by decide) (by decide) (by decide)

theorem updateDb_preserves (db : DB) (mid : Nat) (f : Message → Message)
    (pk : Nat) (m : Message) (h : (pk, m) ∈ db) :
    ∃ m', (pk, m') ∈ updateDb db mid f := by
  refine ⟨if pk = mid then f m else m, ?_⟩
  have hm := List.mem_map_of_mem (fun e : Nat × Message =>
    if e.1 = mid then (e.1, f e.2) else e) h
  by_cases hpk : pk = mid
  · simpa [updateDb, hpk] using hm
  · simpa [updateDb, hpk] using hm

theorem applyOp_preserves (op : AppOp) (db : DB) (pk : Nat) (m : Message)
    (h : (pk, m) ∈ db) : ∃ m', (pk, m') ∈ applyOp op db := by
  cases op with
  | composeOp sender recipients subject body freshUuid now =>
    exact ⟨m, List.mem_append_left _ h⟩
  | replyOp sender parentId recipients subject body now =>
    simp only [applyOp]
    split
    · split
      · exact ⟨m, List.mem_append_left _ h⟩
      · exact ⟨m, h⟩
    · exact ⟨m, h⟩
  | deleteOp user messageId now =>
    simp only [applyOp]
    split
    · split
      · exact updateDb_preserves db messageId _ pk m h
      · exact ⟨m, h⟩
    · exact ⟨m, h⟩
  | undeleteOp user messageId =>
    simp only [applyOp]
    split
    · split
      · exact updateDb_preserves db messageId _ pk m h
      · exact ⟨m, h⟩
    · exact ⟨m, h⟩
  | viewOp user messageId now =>
    simp only [applyOp]
    split
    · split
      · split
        · exact updateDb_preserves db messageId _ pk m h
        · exact ⟨m, h⟩
      · exact ⟨m, h⟩
    · exact ⟨m, h⟩

/-- Claim C5: no request of the application removes a row — every row
present before any sequence of compose/reply/delete/undelete/view
requests is still present (under the same primary key) afterwards — and
the `delete` view's only mutation, `move_to_trash`, sets `deleted` and
`deleted_at` and changes no other field. -/
theorem C5_no_hard_delete (ops : List AppOp) (db : DB) (pk : Nat) (m : Message)
    (h : (pk, m) ∈ db) :
    (∃ m', (pk, m') ∈ applyOps ops db) ∧
    (∀ (msg : Message) (now : Nat),
      (msg.move_to_trash now).deleted = true ∧
      (msg.move_to_trash now).deleted_at = some now ∧
      (msg.move_to_trash now).owner = msg.owner ∧
      (msg.move_to_trash now).«to» = msg.«to» ∧
      (msg.move_to_trash now).subject = msg.subject ∧
      (msg.move_to_trash now).body = msg.body ∧
      (msg.move_to_trash now).sender = msg.sender ∧
      (msg.move_to_trash now).recipient = msg.recipient ∧
      (msg.move_to_trash now).thread = msg.thread ∧
      (msg.move_to_trash now).parent_msg = msg.parent_msg ∧
      (msg.move_to_trash now).sent_at = msg.sent_at ∧
      (msg.move_to_trash now).unread = msg.unread ∧
      (msg.move_to_trash now).read_at = msg.read_at ∧
      (msg.move_to_trash now).replied_at = msg.replied_at) := by
  constructor
  · induction ops generalizing db m with
    | nil => exact ⟨m, h⟩
    | cons op rest ih =>
      obtain ⟨m1, h1⟩ := applyOp_preserves op db pk m h
      exact ih (applyOp op db) m1 h1
  · intro msg now
    refine ⟨rfl, rfl, rfl, rfl, rfl, rfl, rfl, rfl, rfl, rfl, rfl, rfl, rfl, rfl⟩

/-- Witness for C5: after deleting message 1 and viewing it, the sample
table still holds a row with primary key 1. -/
theorem C5_no_hard_delete_witness :
    ∃ m', (1, m') ∈ applyOps [AppOp.deleteOp bob 1 5, AppOp.viewOp bob 1 6] sampleDb :=
  (C5_no_hard_delete [AppOp.deleteOp bob 1 5, AppOp.viewOp bob 1 6] sampleDb 1
      sampleMsg (by decide)).1

theorem commitLoop_discipline (notif : Bool) (label : String)
    (ml : List Message) : NotifyDiscipline (commitLoop notif label ml) := by
  induction ml with
  | nil => exact NotifyDiscipline.nil
  | cons msg rest ih =>
    cases notif with
    | false => exact NotifyDiscipline.skipSave msg _ ih
    | true => exact NotifyDiscipline.savedThenNotify msg label _ ih

theorem notifySends_commitLoop_true (label : String) (ml : List Message) :
    notifySends (commitLoop true label ml) = ml.map (fun m => [m.recipient]) := by
  induction ml with
  | nil => rfl
  | cons msg rest ih => simp [commitLoop, notifySends, ih]

theorem notifySends_commitLoop_false (label : String) (ml : List Message) :
    notifySends (commitLoop false label ml) = [] := by
  induction ml with
  | nil => rfl
  | cons msg rest ih => simp [commitLoop, notifySends, ih]

/-- Claim C7: in the commit phase of both `MessageForm.save` and
`ReplyForm.save`, the notification hook fires exactly once per
recipient copy — immediately after that copy's write and addressed to
that copy's recipient only — the instance write triggers none, and with
the notification app absent no notification call happens at all. -/
theorem C7_per_recipient_notification (sender : User) (recipients : List User)
    (subject body freshUuid : String) (now : Nat)
    (db : DB) (parentId : Nat) (parentMsg : Message) (notif : Bool) :
    NotifyDiscipline (commitEvents notif composeLabel
      (messageFormSave sender recipients subject body freshUuid now).1
      (messageFormSave sender recipients subject body freshUuid now).2) ∧
    notifySends (commitEvents true composeLabel
      (messageFormSave sender recipients subject body freshUuid now).1
      (messageFormSave sender recipients subject body freshUuid now).2) =
      (messageFormSave sender recipients subject body freshUuid now).2.map
        (fun m => [m.recipient]) ∧
    notifySends (commitEvents false composeLabel
      (messageFormSave sender recipients subject body freshUuid now).1
      (messageFormSave sender recipients subject body freshUuid now).2) = [] ∧
    NotifyDiscipline (commitEvents notif replyLabel
      (replyFormSave db sender parentId parentMsg recipients subject body now).1
      (replyFormSave db sender parentId parentMsg recipients subject body now).2) ∧
    notifySends (commitEvents true replyLabel
      (replyFormSave db sender parentId parentMsg recipients subject body now).1
      (replyFormSave db sender parentId parentMsg recipients subject body now).2) =
      (replyFormSave db sender parentId parentMsg recipients subject body now).2.map
        (fun m => [m.recipient]) ∧
    notifySends (commitEvents false replyLabel
      (replyFormSave db sender parentId parentMsg recipients subject body now).1
      (replyFormSave db sender parentId parentMsg recipients subject body now).2) = [] :=
  ⟨NotifyDiscipline.skipInst _ _ (commitLoop_discipline notif composeLabel _),
   notifySends_commitLoop_true composeLabel _,
   notifySends_commitLoop_false composeLabel _,
   NotifyDiscipline.skipInst _ _ (commitLoop_discipline notif replyLabel _),
   notifySends_commitLoop_true replyLabel _,
   notifySends_commitLoop_false replyLabel _⟩
